import Mathlib

/-!
Shallow embedding of the NoteSwift server: authentication routes
(`server/routes.ts`), token helpers (`server/auth.ts`), the OTP e-mail
service (`server/services/emailService.ts`) and the two storage backends
(document-oriented "mongo" and relational "drizzle" variants of
`DatabaseStorage` in `server/storage.ts`).

Time is modelled in milliseconds, matching JavaScript `Date.now()`.
Record identifiers are natural numbers standing for the opaque id strings
of either backend.
-/

/-! ## Decimal rendering of natural numbers

Model of JavaScript `Number.prototype.toString()` for non-negative
integers: the usual base-10 rendering with no leading zeros.
The implementation uses explicit fuel so that it is structurally
recursive and computes by `rfl`/`decide`. -/

def decDigitsAux : Nat → Nat → List Char
  | 0, _ => []
  | fuel + 1, n =>
    if n < 10 then [Nat.digitChar n]
    else decDigitsAux fuel (n / 10) ++ [Nat.digitChar (n % 10)]

/-- Base-10 digit list of a natural number (most significant first). -/
def decDigits (n : Nat) : List Char := decDigitsAux (n + 1) n

/-- Decimal string of a natural number: the model of JS `.toString()`. -/
def toDecString (n : Nat) : String := String.mk (decDigits n)

/-- Numeric value of a digit character. -/
def charVal (c : Char) : Nat := c.toNat - 48

/-- Horner evaluation of a digit list, used to invert `decDigits`. -/
def decVal (l : List Char) : Nat := l.foldl (fun a c => a * 10 + charVal c) 0

/-! ## Constants from the source -/

def tenMinutesMs : Nat := 10 * 60 * 1000

def sevenDaysMs : Nat := 7 * 24 * 60 * 60 * 1000

def JWT_SECRET : String := "your-super-secret-jwt-key-change-this-in-production"

/-! ## OTP generation (`server/services/emailService.ts`)

`generateOTP` is `Math.floor(100000 + Math.random() * 900000).toString()`.
`Math.random()` yields a real `r` with `0 ≤ r < 1`; the argument `j`
models `⌊r * 900000⌋`, which ranges over `0 .. 899999`, so the computed
number is `100000 + j`. -/

def generateOTP (j : Nat) : String := toDecString (100000 + j)

/-- Message of the error thrown by `sendOTPEmail` when the underlying
SMTP transport fails: the transport error is logged and replaced by this
fixed generic message. -/
def sendOTPEmailMessage : String := "Failed to send verification email"

/-! ## Token service (`server/auth.ts`)

Modelled from the spec: `generateToken`/`verifyToken` delegate to the
third-party `jsonwebtoken` library (`jwt.sign` / `jwt.verify`), whose
code is not part of this repository.  Per spec §4.2 and §3, a session
token is a signed, self-contained credential embedding userId, email and
issue time, with a fixed 7-day validity window; verification fails with
`Invalid` when the signature does not verify (wrong secret) or the
structure is malformed, and with `Expired` when the current time reaches
the embedded expiry (`exp = iat + 7 days`; the library rejects once
`now ≥ exp`). -/

inductive Token where
  | signed (secret : String) (userId : Nat) (email : String) (iat : Nat)
  | malformed (raw : String)
  deriving DecidableEq, Repr

structure JWTPayload where
  userId : Nat
  email : String
  deriving DecidableEq, Repr

inductive TokenError where
  | invalid
  | expired
  deriving DecidableEq, Repr

/-- `generateToken` from `server/auth.ts`: sign the payload with
`JWT_SECRET`, expiring in 7 days. -/
def generateToken (now : Nat) (userId : Nat) (email : String) : Token :=
  Token.signed JWT_SECRET userId email now

/-- `verifyToken` from `server/auth.ts`: verify signature and expiry. -/
def verifyToken (t : Token) (now : Nat) : Except TokenError JWTPayload :=
  match t with
  | Token.malformed _ => Except.error TokenError.invalid
  | Token.signed secret uid em iat =>
    if secret ≠ JWT_SECRET then Except.error TokenError.invalid
    else if iat + sevenDaysMs ≤ now then Except.error TokenError.expired
    else Except.ok ⟨uid, em⟩

/-! ## Data model (`shared/schema.ts`)

`isUsed` and `isEmailVerified` are strings `"false"` / `"true"` exactly
as in the schemas. -/

structure OTPRecord where
  oid : Nat
  email : String
  code : String
  expiresAt : Nat
  isUsed : String
  deriving DecidableEq, Repr

structure UserRec where
  uid : Nat
  email : String
  name : String
  dateOfBirth : String
  password : Option String
  isEmailVerified : String
  googleId : Option String
  updatedAt : Nat
  deriving DecidableEq, Repr

structure NoteRec where
  nid : Nat
  title : String
  content : String
  userId : Nat
  updatedAt : Nat
  deriving DecidableEq, Repr

structure Store where
  users : List UserRec
  notes : List NoteRec
  otps : List OTPRecord
  nextId : Nat
  deriving DecidableEq, Repr

/-- Argument record of `createUser` (`InsertUser` in `shared/schema.ts`). -/
structure InsertUser where
  name : String
  dateOfBirth : String
  email : String
  password : Option String
  isEmailVerified : String
  googleId : Option String
  deriving DecidableEq, Repr

/-- Argument record of `updateUser` (`Partial<UserType>`): a field that is
`none` is absent from the update object and left unchanged. -/
structure UserUpdate where
  email : Option String
  name : Option String
  dateOfBirth : Option String
  password : Option (Option String)
  isEmailVerified : Option String
  googleId : Option (Option String)
  deriving DecidableEq, Repr

/-- The mongo update-document spread `{ ...updates, updatedAt: new Date() }`
applied to a user document. -/
def applyUserUpdate (u : UserRec) (upd : UserUpdate) (now : Nat) : UserRec :=
  ⟨u.uid, upd.email.getD u.email, upd.name.getD u.name,
   upd.dateOfBirth.getD u.dateOfBirth, upd.password.getD u.password,
   upd.isEmailVerified.getD u.isEmailVerified, upd.googleId.getD u.googleId, now⟩

/-- Argument record of `updateNote` (`UpdateNoteData`). -/
structure NoteUpdate where
  title : Option String
  content : Option String
  deriving DecidableEq, Repr

/-- The update spread `{ ...updates, updatedAt: new Date() }` applied to a
note record. -/
def applyNoteUpdate (nt : NoteRec) (upd : NoteUpdate) (now : Nat) : NoteRec :=
  ⟨nt.nid, upd.title.getD nt.title, upd.content.getD nt.content, nt.userId, now⟩

/-! ## Storage backends

The mongo backend (`server/storage.ts`, document variant) and the drizzle
backend (relational variant) are modelled over the same `Store` state.
`find?` models `findOne` (mongo) and first-row destructuring of an
unordered `select` (drizzle). -/

def getUserByEmail (s : Store) (email : String) : Option UserRec :=
  s.users.find? (fun u => u.email == email)

def getUser (s : Store) (id : Nat) : Option UserRec :=
  s.users.find? (fun u => u.uid == id)

/-- `createUser`: insert a fresh user document and return it. -/
def createUser (s : Store) (d : InsertUser) (now : Nat) : UserRec × Store :=
  let u : UserRec := ⟨s.nextId, d.email, d.name, d.dateOfBirth, d.password,
                      d.isEmailVerified, d.googleId, now⟩
  (u, { s with users := s.users ++ [u], nextId := s.nextId + 1 })

/-- Mongo `updateUser`: `findByIdAndUpdate(id, { ...updates, updatedAt },
{ new: true })` — returns the updated document, or `null` when no user has
this id. -/
def updateUser (s : Store) (id : Nat) (upd : UserUpdate) (now : Nat) :
    Option UserRec × Store :=
  match s.users.find? (fun u => u.uid == id) with
  | none => (none, s)
  | some u =>
    let u2 := applyUserUpdate u upd now
    (some u2, { s with users := s.users.map (fun x => if x.uid == id then u2 else x) })

def noteMatch (id userId : Nat) (nt : NoteRec) : Bool :=
  nt.nid == id && nt.userId == userId

/-- Mongo `updateNote`: `findOneAndUpdate({ _id: id, userId }, ...)` —
filters by both note id and owner id. -/
def updateNote_mongo (s : Store) (id userId : Nat) (upd : NoteUpdate) (now : Nat) :
    Option NoteRec × Store :=
  match s.notes.find? (noteMatch id userId) with
  | none => (none, s)
  | some nt =>
    let nt2 := applyNoteUpdate nt upd now
    (some nt2,
     { s with notes := s.notes.map (fun x => if noteMatch id userId x then nt2 else x) })

/-- Mongo `deleteNote`: `findOneAndDelete({ _id: id, userId })`, result is
whether a document was deleted. -/
def deleteNote_mongo (s : Store) (id userId : Nat) : Bool × Store :=
  match s.notes.find? (noteMatch id userId) with
  | none => (false, s)
  | some _ =>
    (true, { s with notes := s.notes.filter (fun x => !(noteMatch id userId x)) })

/-- Drizzle `updateNote`: `update .. where (id = ? and user_id = ?)
returning`, first returned row. -/
def updateNote_drizzle (s : Store) (id userId : Nat) (upd : NoteUpdate) (now : Nat) :
    Option NoteRec × Store :=
  (((s.notes.filter (noteMatch id userId)).map (fun x => applyNoteUpdate x upd now)).head?,
   { s with notes := s.notes.map (fun x =>
       if noteMatch id userId x then applyNoteUpdate x upd now else x) })

/-- Drizzle `deleteNote`: `delete .. where (id = ? and user_id = ?)
returning`, result is whether any row came back. -/
def deleteNote_drizzle (s : Store) (id userId : Nat) : Bool × Store :=
  ((s.notes.filter (noteMatch id userId)).length > 0,
   { s with notes := s.notes.filter (fun x => !(noteMatch id userId x)) })

/-- `createOTPCode` (both backends): insert a fresh OTP record with
`isUsed = "false"` (the schema default). -/
def createOTPCode (s : Store) (email code : String) (expiresAt : Nat) :
    OTPRecord × Store :=
  let r : OTPRecord := ⟨s.nextId, email, code, expiresAt, "false"⟩
  (r, { s with otps := s.otps ++ [r], nextId := s.nextId + 1 })

/-- Mongo `getValidOTPCode`: `findOne({ email, code,
expiresAt: { $gt: new Date() }, isUsed: "false" })` — note the STRICT
`expiresAt > now` comparison. -/
def getValidOTPCode_mongo (s : Store) (now : Nat) (email code : String) :
    Option OTPRecord :=
  s.otps.find? (fun r =>
    r.email == email && r.code == code && decide (now < r.expiresAt) && r.isUsed == "false")

/-- Drizzle `getValidOTPCode`: select the first row matching
`email, code, isUsed = "false"`, then keep it only when
`new Date() <= expiresAt` (non-strict). -/
def getValidOTPCode_drizzle (s : Store) (now : Nat) (email code : String) :
    Option OTPRecord :=
  match s.otps.find? (fun r => r.email == email && r.code == code && r.isUsed == "false") with
  | some r => if now ≤ r.expiresAt then some r else none
  | none => none

/-- `markOTPAsUsed` (both backends): set `isUsed := "true"` on the record
with the given id. -/
def markOTPAsUsed (s : Store) (id : Nat) : Store :=
  { s with otps := s.otps.map (fun r =>
      if r.oid == id then ⟨r.oid, r.email, r.code, r.expiresAt, "true"⟩ else r) }

/-- Mongo `cleanupExpiredOTPs`: `deleteMany({ $or: [ { expiresAt:
{ $lt: now } }, { isUsed: "true" } ] })`. -/
def cleanupExpiredOTPs_mongo (s : Store) (now : Nat) : Store :=
  { s with otps := s.otps.filter (fun r =>
      !(decide (r.expiresAt < now) || r.isUsed == "true")) }

/-- Drizzle `cleanupExpiredOTPs`: `delete .. where expires_at < NOW()` —
used-but-unexpired records are NOT deleted by this backend. -/
def cleanupExpiredOTPs_drizzle (s : Store) (now : Nat) : Store :=
  { s with otps := s.otps.filter (fun r => !(decide (r.expiresAt < now))) }

/-! ## Route handlers (`server/routes.ts`)

Handlers act on a `World`: the store plus the list of OTP e-mails handed
to the transport.  Nondeterministic inputs of a request are explicit
arguments: `now` (the clock), `otpCode` (the `generateOTP` output),
`emailErr` (`none` when the SMTP transport succeeds, `some msg` when it
fails with internal message `msg`), `googleResult` (`none` when
`verifyGoogleToken` rejects the assertion, `some info` when it verifies).
Handlers model the behavior after zod validation has succeeded. -/

structure World where
  store : Store
  sentEmails : List (String × String)
  deriving DecidableEq, Repr

structure HResp where
  status : Nat
  message : String
  errors : List String
  token : Option Token
  deriving DecidableEq, Repr

structure GoogleUserInfo where
  id : String
  email : String
  name : String
  deriving DecidableEq, Repr

/-- `POST /api/auth/signup`. -/
def signup (w : World) (now : Nat) (name dateOfBirth email : String)
    (otpCode : String) (emailErr : Option String) : HResp × World :=
  match getUserByEmail w.store email with
  | some _ => (⟨400, "User already exists with this email", [], none⟩, w)
  | none =>
    let s1 := (createOTPCode w.store email otpCode (now + tenMinutesMs)).2
    match emailErr with
    | none =>
      (⟨200, "Verification code sent to your email", [], none⟩,
       ⟨s1, (email, otpCode) :: w.sentEmails⟩)
    | some _ =>
      (⟨400, "Signup failed", [sendOTPEmailMessage], none⟩, ⟨s1, w.sentEmails⟩)

/-- `POST /api/auth/verify-otp`. -/
def verifyOtp (w : World) (now : Nat) (email code : String)
    (tempName tempDob tempEmail : String) : HResp × World :=
  match getValidOTPCode_mongo w.store now email code with
  | none => (⟨400, "Invalid or expired verification code", [], none⟩, w)
  | some r =>
    let s1 := markOTPAsUsed w.store r.oid
    let res := createUser s1 ⟨tempName, tempDob, tempEmail, none, "true", none⟩ now
    (⟨200, "Email verified successfully", [],
      some (generateToken now res.1.uid res.1.email)⟩,
     ⟨res.2, w.sentEmails⟩)

/-- `POST /api/auth/login`. -/
def login (w : World) (now : Nat) (email : String) (otpCode : String)
    (emailErr : Option String) : HResp × World :=
  match getUserByEmail w.store email with
  | none =>
    (⟨404, "No account found with this email. Please sign up first.", [], none⟩, w)
  | some user =>
    if user.isEmailVerified ≠ "true" then
      (⟨401, "Please verify your email before logging in", [], none⟩, w)
    else
      let s1 := (createOTPCode w.store email otpCode (now + tenMinutesMs)).2
      match emailErr with
      | none =>
        (⟨200, "Verification code sent to your email", [], none⟩,
         ⟨s1, (email, otpCode) :: w.sentEmails⟩)
      | some _ =>
        (⟨400, "Login failed", [sendOTPEmailMessage], none⟩, ⟨s1, w.sentEmails⟩)

/-- `POST /api/auth/verify-login-otp`.  Note the order: the OTP is marked
used BEFORE the user lookup. -/
def verifyLoginOtp (w : World) (now : Nat) (email code : String) : HResp × World :=
  match getValidOTPCode_mongo w.store now email code with
  | none => (⟨400, "Invalid or expired verification code", [], none⟩, w)
  | some r =>
    let s1 := markOTPAsUsed w.store r.oid
    match getUserByEmail s1 email with
    | none => (⟨404, "User not found", [], none⟩, ⟨s1, w.sentEmails⟩)
    | some user =>
      (⟨200, "Login successful", [],
        some (generateToken now user.uid user.email)⟩, ⟨s1, w.sentEmails⟩)

/-- `POST /api/auth/resend-otp`. -/
def resendOtp (w : World) (now : Nat) (email : String) (otpCode : String)
    (emailErr : Option String) : HResp × World :=
  if email = "" then (⟨400, "Email is required", [], none⟩, w)
  else
    let s1 := (createOTPCode w.store email otpCode (now + tenMinutesMs)).2
    match emailErr with
    | none =>
      (⟨200, "New verification code sent to your email", [], none⟩,
       ⟨s1, (email, otpCode) :: w.sentEmails⟩)
    | some _ =>
      (⟨500, "Failed to resend verification code", [], none⟩, ⟨s1, w.sentEmails⟩)

/-- `POST /api/auth/google`.  `googleResult = none` models a
`verifyGoogleToken` rejection (caught, 400); reading `._id` of a `null`
`updateUser` result throws and is caught by the same handler (400). -/
def googleAuth (w : World) (now : Nat) (tokenPresent : Bool)
    (googleResult : Option GoogleUserInfo) : HResp × World :=
  if !tokenPresent then (⟨400, "Google token is required", [], none⟩, w)
  else
    match googleResult with
    | none => (⟨400, "Google authentication failed", [], none⟩, w)
    | some g =>
      match getUserByEmail w.store g.email with
      | none =>
        let res := createUser w.store ⟨g.name, "1990-01-01", g.email, none, "true", some g.id⟩ now
        (⟨200, "Google authentication successful", [],
          some (generateToken now res.1.uid res.1.email)⟩, ⟨res.2, w.sentEmails⟩)
      | some u0 =>
        if u0.googleId = none then
          match updateUser w.store u0.uid ⟨none, none, none, none, none, some (some g.id)⟩ now with
          | (some user, s1) =>
            (⟨200, "Google authentication successful", [],
              some (generateToken now user.uid user.email)⟩, ⟨s1, w.sentEmails⟩)
          | (none, s1) =>
            (⟨400, "Google authentication failed", [], none⟩, ⟨s1, w.sentEmails⟩)
        else
          (⟨200, "Google authentication successful", [],
            some (generateToken now u0.uid u0.email)⟩, w)

/-- `GET /api/auth/google/callback`: same linking logic as the POST route;
success is a 302 redirect carrying the token, failure a 302 redirect with
an error query parameter. -/
def googleCallback (w : World) (now : Nat) (codePresent : Bool)
    (googleResult : Option GoogleUserInfo) : HResp × World :=
  if !codePresent then (⟨302, "/?error=google_auth_failed", [], none⟩, w)
  else
    match googleResult with
    | none => (⟨302, "/?error=google_auth_failed", [], none⟩, w)
    | some g =>
      match getUserByEmail w.store g.email with
      | none =>
        let res := createUser w.store ⟨g.name, "1990-01-01", g.email, none, "true", some g.id⟩ now
        (⟨302, "/?token=", [], some (generateToken now res.1.uid res.1.email)⟩,
         ⟨res.2, w.sentEmails⟩)
      | some u0 =>
        if u0.googleId = none then
          match updateUser w.store u0.uid ⟨none, none, none, none, none, some (some g.id)⟩ now with
          | (some user, s1) =>
            (⟨302, "/?token=", [], some (generateToken now user.uid user.email)⟩,
             ⟨s1, w.sentEmails⟩)
          | (none, s1) =>
            (⟨302, "/?error=google_auth_failed", [], none⟩, ⟨s1, w.sentEmails⟩)
        else
          (⟨302, "/?token=", [], some (generateToken now u0.uid u0.email)⟩, w)

structure NoteResp where
  status : Nat
  message : String
  note : Option NoteRec
  deriving DecidableEq, Repr

/-- `PUT /api/notes/:id` (authenticated as `authUserId`). -/
def updateNoteRoute (w : World) (now : Nat) (authUserId id : Nat)
    (upd : NoteUpdate) : NoteResp × World :=
  match updateNote_mongo w.store id authUserId upd now with
  | (none, s1) => (⟨404, "Note not found", none⟩, ⟨s1, w.sentEmails⟩)
  | (some nt, s1) => (⟨200, "", some nt⟩, ⟨s1, w.sentEmails⟩)

/-- `DELETE /api/notes/:id` (authenticated as `authUserId`). -/
def deleteNoteRoute (w : World) (now : Nat) (authUserId id : Nat) : NoteResp × World :=
  match deleteNote_mongo w.store id authUserId with
  | (false, s1) => (⟨404, "Note not found", none⟩, ⟨s1, w.sentEmails⟩)
  | (true, s1) => (⟨200, "Note deleted successfully", none⟩, ⟨s1, w.sentEmails⟩)

/-! ## Lemmas about the decimal rendering -/

theorem decDigitsAux_congr (f : Nat) : ∀ g n, n < f → n < g →
    decDigitsAux f n = decDigitsAux g n := by
  induction f with
  | zero => intro g n hf _; omega
  | succ f ih =>
    intro g n hf hg
    cases g with
    | zero => omega
    | succ g =>
      simp only [decDigitsAux]
      by_cases h10 : n < 10
      · simp [h10]
      · simp only [if_neg h10]
        rw [ih g (n / 10) (by omega) (by omega)]

theorem decDigits_eq (n : Nat) : decDigits n =
    if n < 10 then [Nat.digitChar n]
    else decDigits (n / 10) ++ [Nat.digitChar (n % 10)] := by
  show decDigitsAux (n + 1) n = _
  simp only [decDigitsAux]
  by_cases h10 : n < 10
  · simp [h10]
  · simp only [if_neg h10]
    rw [decDigitsAux_congr n (n / 10 + 1) (n / 10) (by omega) (by omega)]
    rfl

theorem charVal_digitChar : ∀ d, d < 10 → charVal (Nat.digitChar d) = d := by decide

theorem digitChar_ne_zero_char : ∀ d, d < 10 → 0 < d → Nat.digitChar d ≠ '0' := by decide

theorem digitChar_isDigit : ∀ d, d < 10 → (Nat.digitChar d).isDigit = true := by decide

theorem decVal_decDigits (n : Nat) : decVal (decDigits n) = n := by
  induction n using Nat.strong_induction_on with
  | _ n ih =>
    rw [decDigits_eq]
    by_cases h10 : n < 10
    · simp only [if_pos h10, decVal, List.foldl]
      rw [charVal_digitChar n h10]
      omega
    · simp only [if_neg h10, decVal, List.foldl_append, List.foldl]
      have hrec := ih (n / 10) (by omega)
      simp only [decVal] at hrec
      rw [hrec, charVal_digitChar (n % 10) (by omega)]
      omega

theorem decDigits_inj (m n : Nat) (h : decDigits m = decDigits n) : m = n := by
  rw [← decVal_decDigits m, ← decVal_decDigits n, h]

theorem toDecString_inj (m n : Nat) (h : toDecString m = toDecString n) : m = n := by
  apply decDigits_inj
  unfold toDecString at h
  injection h

theorem decDigits_ne_nil (n : Nat) : decDigits n ≠ [] := by
  rw [decDigits_eq]
  by_cases h : n < 10 <;> simp [h]

theorem decDigits_head_ne_zero (n : Nat) : 0 < n → (decDigits n).head? ≠ some '0' := by
  induction n using Nat.strong_induction_on with
  | _ n ih =>
    intro hn
    rw [decDigits_eq]
    by_cases h10 : n < 10
    · rw [if_pos h10]
      intro he
      simp only [List.head?_cons, Option.some.injEq] at he
      exact digitChar_ne_zero_char n h10 hn he
    · rw [if_neg h10, List.head?_append]
      cases hl : decDigits (n / 10) with
      | nil => exact absurd hl (decDigits_ne_nil (n / 10))
      | cons a t =>
        have hih := ih (n / 10) (by omega) (by omega)
        rw [hl] at hih
        simpa using hih

theorem decDigits_length (k : Nat) : ∀ n, 10 ^ k ≤ n → n < 10 ^ (k + 1) →
    (decDigits n).length = k + 1 := by
  induction k with
  | zero =>
    intro n h1 h2
    rw [decDigits_eq, if_pos (by simpa using h2)]
    rfl
  | succ k ih =>
    intro n h1 h2
    have hp : (10 : Nat) ^ 1 ≤ 10 ^ (k + 1) := Nat.pow_le_pow_right (by omega) (by omega)
    have h10 : ¬ n < 10 := by simp only [pow_one] at hp; omega
    rw [decDigits_eq, if_neg h10, List.length_append]
    have e1 : (10 : Nat) ^ (k + 1) = 10 ^ k * 10 := pow_succ 10 k
    have e2 : (10 : Nat) ^ (k + 2) = 10 ^ (k + 1) * 10 := pow_succ 10 (k + 1)
    have lo : 10 ^ k ≤ n / 10 := by
      rw [Nat.le_div_iff_mul_le (by omega)]
      omega
    have hi : n / 10 < 10 ^ (k + 1) := by
      rw [Nat.div_lt_iff_lt_mul (by omega)]
      omega
    rw [ih (n / 10) lo hi]
    rfl

theorem decDigits_isDigit (n : Nat) : ∀ c ∈ decDigits n, c.isDigit = true := by
  induction n using Nat.strong_induction_on with
  | _ n ih =>
    rw [decDigits_eq]
    by_cases h10 : n < 10
    · rw [if_pos h10]
      intro c hc
      simp only [List.mem_singleton] at hc
      subst hc
      exact digitChar_isDigit n h10
    · rw [if_neg h10]
      intro c hc
      rcases List.mem_append.mp hc with h | h
      · exact ih (n / 10) (by omega) c h
      · simp only [List.mem_singleton] at h
        subst h
        exact digitChar_isDigit (n % 10) (by omega)

/-! ## C5: OTP code format -/

/-- C5 (amended): every string returned by `generateOTP` is exactly 6
decimal digits with a nonzero leading digit; distinct randomness values
give distinct codes, so the generator is uniform over the 900000 codes
"100000" .. "999999", and every such code is a possible output — but
codes with a leading zero are never produced. -/
theorem c5_generateOTP_six_digits :
    ∀ j, j < 900000 →
      ((generateOTP j).length = 6 ∧
       (∀ c ∈ (generateOTP j).data, c.isDigit = true) ∧
       (generateOTP j).data.head? ≠ some '0') ∧
      (∀ k, k < 900000 → generateOTP j = generateOTP k → j = k) ∧
      (∀ n, 100000 ≤ n → n ≤ 999999 → ∃ k, k < 900000 ∧ generateOTP k = toDecString n) := by
  intro j hj
  refine ⟨⟨?_, ?_, ?_⟩, ?_, ?_⟩
  · show (decDigits (100000 + j)).length = 6
    have h5 : (10 : Nat) ^ 5 = 100000 := by norm_num
    have h6 : (10 : Nat) ^ 6 = 1000000 := by norm_num
    exact decDigits_length 5 (100000 + j) (by omega) (by omega)
  · exact decDigits_isDigit (100000 + j)
  · exact decDigits_head_ne_zero (100000 + j) (by omega)
  · intro k _ he
    have := toDecString_inj (100000 + j) (100000 + k) he
    omega
  · intro n h1 h2
    refine ⟨n - 100000, by omega, ?_⟩
    unfold generateOTP
    have he : 100000 + (n - 100000) = n := by omega
    rw [he]

/-- C5 counterexample: the all-zero code "000000" (and with it any code
with a leading zero) is NOT a possible output of `generateOTP`, because
the generated number is always at least 100000. -/
theorem c5_counterexample : ¬ ∃ j, j < 900000 ∧ generateOTP j = "000000" := by
  rintro ⟨j, hj, he⟩
  have hd : decDigits (100000 + j) = "000000".data := congrArg String.data he
  have h0 := decDigits_head_ne_zero (100000 + j) (by omega)
  rw [hd] at h0
  exact h0 (by decide)

/-- Concrete instantiation of `c5_generateOTP_six_digits`. -/
theorem c5_witness :
    (generateOTP 0).length = 6 ∧ generateOTP 0 = "100000" ∧
    (∃ k, k < 900000 ∧ generateOTP k = toDecString 123456) :=
  ⟨(c5_generateOTP_six_digits 0 (by decide)).1.1, rfl,
   (c5_generateOTP_six_digits 0 (by decide)).2.2 123456 (by decide) (by decide)⟩

/-! ## C4: token validity window -/

/-- C4: a token generated at time `T` verifies successfully, returning the
embedded userId and email claims, at every time strictly inside the 7-day
window — in particular at `T + 6 days 23 hours` — and is rejected as
expired at every time past `T + 7 days` — in particular at
`T + 7 days 1 hour`; a token signed with the wrong secret or structurally
malformed is rejected at every time. -/
theorem c4_token_seven_day_window :
    ∀ userId T, ∀ email : String,
      (∀ t, t < T + sevenDaysMs →
        verifyToken (generateToken T userId email) t = Except.ok ⟨userId, email⟩) ∧
      (verifyToken (generateToken T userId email) (T + 6 * 86400000 + 23 * 3600000)
        = Except.ok ⟨userId, email⟩) ∧
      (∀ t, T + sevenDaysMs < t →
        verifyToken (generateToken T userId email) t = Except.error TokenError.expired) ∧
      (verifyToken (generateToken T userId email) (T + sevenDaysMs + 3600000)
        = Except.error TokenError.expired) ∧
      (∀ secret uid iat t, ∀ em : String, secret ≠ JWT_SECRET →
        verifyToken (Token.signed secret uid em iat) t = Except.error TokenError.invalid) ∧
      (∀ t, ∀ raw : String, verifyToken (Token.malformed raw) t = Except.error TokenError.invalid) := by
  intro userId T email
  refine ⟨?_, ?_, ?_, ?_, ?_, ?_⟩
  · intro t ht
    have h2 : ¬ (T + sevenDaysMs ≤ t) := by omega
    simp [generateToken, verifyToken, h2]
  · have h2 : ¬ (T + sevenDaysMs ≤ T + 6 * 86400000 + 23 * 3600000) := by
      simp only [sevenDaysMs]; omega
    simp [generateToken, verifyToken, h2]
  · intro t ht
    have h2 : T + sevenDaysMs ≤ t := by omega
    simp [generateToken, verifyToken, h2]
  · have h2 : T + sevenDaysMs ≤ T + sevenDaysMs + 3600000 := by omega
    simp [generateToken, verifyToken, h2]
  · intro secret uid iat t em hne
    simp [verifyToken, hne]
  · intro t raw
    simp [verifyToken]

/-- Concrete instantiation of `c4_token_seven_day_window`. -/
theorem c4_witness :
    verifyToken (generateToken 0 1 "a@x.com") 601200000 = Except.ok ⟨1, "a@x.com"⟩ ∧
    verifyToken (generateToken 0 1 "a@x.com") 608400000 = Except.error TokenError.expired :=
  ⟨(c4_token_seven_day_window 1 0 "a@x.com").1 601200000 (by norm_num [sevenDaysMs]),
   (c4_token_seven_day_window 1 0 "a@x.com").2.2.1 608400000 (by norm_num [sevenDaysMs])⟩

/-! ## C2: getValidOTPCode semantics and single use -/

/-- After `markOTPAsUsed s r.oid`, no record matching (email, code, unused)
remains, provided every unused match in `s` had id `r.oid`. -/
theorem marked_no_unused_match (s : Store) (r : OTPRecord) (email code : String)
    (huniq : ∀ q ∈ s.otps, q.email = email → q.code = code → q.isUsed = "false" → q.oid = r.oid) :
    ∀ x ∈ (markOTPAsUsed s r.oid).otps, ¬(x.email = email ∧ x.code = code ∧ x.isUsed = "false") := by
  intro x hx
  rintro ⟨he, hc, hu⟩
  simp only [markOTPAsUsed, List.mem_map] at hx
  obtain ⟨q, hq, hfx⟩ := hx
  by_cases hoid : q.oid = r.oid
  · rw [if_pos (by simpa using hoid)] at hfx
    subst hfx
    simp at hu
  · rw [if_neg (by simpa using hoid)] at hfx
    subst hfx
    exact hoid (huniq q hq he hc hu)

/-- The mongo lookup finds nothing once the only unused (email, code)
match has been marked used. -/
theorem getValidOTPCode_mongo_none_after_mark (s : Store) (r : OTPRecord) (email code : String)
    (huniq : ∀ q ∈ s.otps, q.email = email → q.code = code → q.isUsed = "false" → q.oid = r.oid)
    (t2 : Nat) :
    getValidOTPCode_mongo (markOTPAsUsed s r.oid) t2 email code = none := by
  apply List.find?_eq_none.mpr
  intro x hx hp
  apply marked_no_unused_match s r email code huniq x hx
  simp only [Bool.and_eq_true, beq_iff_eq, decide_eq_true_eq] at hp
  exact ⟨hp.1.1.1, hp.1.1.2, hp.2⟩

/-- The drizzle lookup finds nothing once the only unused (email, code)
match has been marked used. -/
theorem getValidOTPCode_drizzle_none_after_mark (s : Store) (r : OTPRecord) (email code : String)
    (huniq : ∀ q ∈ s.otps, q.email = email → q.code = code → q.isUsed = "false" → q.oid = r.oid)
    (t2 : Nat) :
    getValidOTPCode_drizzle (markOTPAsUsed s r.oid) t2 email code = none := by
  have hnone : (markOTPAsUsed s r.oid).otps.find?
      (fun x => x.email == email && x.code == code && x.isUsed == "false") = none := by
    apply List.find?_eq_none.mpr
    intro x hx hp
    apply marked_no_unused_match s r email code huniq x hx
    simp only [Bool.and_eq_true, beq_iff_eq] at hp
    exact ⟨hp.1.1, hp.1.2, hp.2⟩
  simp [getValidOTPCode_drizzle, hnone]

/-- C2 (amended): the mongo `getValidOTPCode` returns a record iff some
record matches the email and code exactly, is unused, and satisfies the
STRICT bound `now < expiresAt`; the returned record is such a record.
The drizzle backend checks the NON-strict bound `now ≤ expiresAt`, on the
first row matching (email, code, unused).  In both backends, once the
returned record is marked used — and it was the only unused match for
this (email, code) — a second lookup with the same pair fails, so
verification succeeds at most once. -/
theorem c2_getValidOTPCode_semantics :
    ∀ s : Store, ∀ now : Nat, ∀ email code : String,
      ((getValidOTPCode_mongo s now email code).isSome ↔
        ∃ r ∈ s.otps, r.email = email ∧ r.code = code ∧ now < r.expiresAt ∧ r.isUsed = "false") ∧
      (∀ r, getValidOTPCode_mongo s now email code = some r →
        r ∈ s.otps ∧ r.email = email ∧ r.code = code ∧ now < r.expiresAt ∧ r.isUsed = "false") ∧
      (∀ r, s.otps.find? (fun x => x.email == email && x.code == code && x.isUsed == "false") = some r →
        getValidOTPCode_drizzle s now email code = if now ≤ r.expiresAt then some r else none) ∧
      (s.otps.find? (fun x => x.email == email && x.code == code && x.isUsed == "false") = none →
        getValidOTPCode_drizzle s now email code = none) ∧
      (∀ r, getValidOTPCode_mongo s now email code = some r →
        (∀ q ∈ s.otps, q.email = email → q.code = code → q.isUsed = "false" → q.oid = r.oid) →
        ∀ t2, getValidOTPCode_mongo (markOTPAsUsed s r.oid) t2 email code = none ∧
              getValidOTPCode_drizzle (markOTPAsUsed s r.oid) t2 email code = none) := by
  intro s now email code
  refine ⟨?_, ?_, ?_, ?_, ?_⟩
  · rw [getValidOTPCode_mongo, List.find?_isSome]
    constructor
    · rintro ⟨x, hx, hp⟩
      simp only [Bool.and_eq_true, beq_iff_eq, decide_eq_true_eq] at hp
      exact ⟨x, hx, hp.1.1.1, hp.1.1.2, hp.1.2, hp.2⟩
    · rintro ⟨x, hx, h1, h2, h3, h4⟩
      exact ⟨x, hx, by simp [h1, h2, h3, h4]⟩
  · intro r hr
    have hmem := List.mem_of_find?_eq_some hr
    have hp := List.find?_some hr
    simp only [Bool.and_eq_true, beq_iff_eq, decide_eq_true_eq] at hp
    exact ⟨hmem, hp.1.1.1, hp.1.1.2, hp.1.2, hp.2⟩
  · intro r hr
    simp [getValidOTPCode_drizzle, hr]
  · intro hnone
    simp [getValidOTPCode_drizzle, hnone]
  · intro r _ huniq t2
    exact ⟨getValidOTPCode_mongo_none_after_mark s r email code huniq t2,
           getValidOTPCode_drizzle_none_after_mark s r email code huniq t2⟩

/-- Store with a single unused OTP record expiring exactly at time 100. -/
def c2store : Store := ⟨[], [], [⟨1, "a@x.com", "123456", 100, "false"⟩], 2⟩

/-- C2 counterexample: at `now = expiresAt` a record satisfying the
claim's condition `now ≤ expiresAt` (email and code match exactly,
unused) exists, yet the mongo `getValidOTPCode` returns nothing, because
the mongo query requires `expiresAt > now` strictly. -/
theorem c2_counterexample :
    (∃ r ∈ c2store.otps, r.email = "a@x.com" ∧ r.code = "123456" ∧
      (100 : Nat) ≤ r.expiresAt ∧ r.isUsed = "false") ∧
    getValidOTPCode_mongo c2store 100 "a@x.com" "123456" = none := by
  constructor
  · exact ⟨⟨1, "a@x.com", "123456", 100, "false"⟩, by simp [c2store], rfl, rfl, by decide, rfl⟩
  · rfl

/-- Store with a single unused OTP record expiring at time 1000. -/
def c2wstore : Store := ⟨[], [], [⟨1, "a@x.com", "123456", 1000, "false"⟩], 2⟩

/-- Concrete instantiation of `c2_getValidOTPCode_semantics`: the lookup
succeeds once and fails after the record is marked used. -/
theorem c2_witness :
    getValidOTPCode_mongo c2wstore 0 "a@x.com" "123456" =
      some ⟨1, "a@x.com", "123456", 1000, "false"⟩ ∧
    getValidOTPCode_mongo (markOTPAsUsed c2wstore 1) 0 "a@x.com" "123456" = none ∧
    getValidOTPCode_drizzle (markOTPAsUsed c2wstore 1) 0 "a@x.com" "123456" = none := by
  have h1 : getValidOTPCode_mongo c2wstore 0 "a@x.com" "123456" =
      some ⟨1, "a@x.com", "123456", 1000, "false"⟩ := rfl
  have h2 := (c2_getValidOTPCode_semantics c2wstore 0 "a@x.com" "123456").2.2.2.2
    ⟨1, "a@x.com", "123456", 1000, "false"⟩ h1 (by decide) 0
  exact ⟨h1, h2.1, h2.2⟩

/-! ## C7: cleanup sweep -/

/-- C7 (amended): the mongo sweep deletes exactly the records that are
expired (`expiresAt < now`) or marked used, and nothing else; the drizzle
sweep deletes exactly the expired records — used-but-unexpired records
survive it.  Neither sweep touches users or notes. -/
theorem c7_cleanup_semantics :
    ∀ s : Store, ∀ now : Nat,
      (∀ r : OTPRecord, r ∈ (cleanupExpiredOTPs_mongo s now).otps ↔
        r ∈ s.otps ∧ ¬(r.expiresAt < now ∨ r.isUsed = "true")) ∧
      ((cleanupExpiredOTPs_mongo s now).users = s.users ∧
       (cleanupExpiredOTPs_mongo s now).notes = s.notes) ∧
      (∀ r : OTPRecord, r ∈ (cleanupExpiredOTPs_drizzle s now).otps ↔
        r ∈ s.otps ∧ ¬(r.expiresAt < now)) ∧
      ((cleanupExpiredOTPs_drizzle s now).users = s.users ∧
       (cleanupExpiredOTPs_drizzle s now).notes = s.notes) := by
  intro s now
  refine ⟨?_, ⟨rfl, rfl⟩, ?_, ⟨rfl, rfl⟩⟩
  · intro r
    simp [cleanupExpiredOTPs_mongo, List.mem_filter, not_or]
  · intro r
    simp [cleanupExpiredOTPs_drizzle, List.mem_filter]

/-- Store with a single used, unexpired OTP record. -/
def c7store : Store := ⟨[], [], [⟨1, "a@x.com", "123456", 1000, "true"⟩], 2⟩

/-- C7 counterexample: a used but unexpired record is NOT deleted by the
drizzle sweep, although the claim says every backend deletes used
records. -/
theorem c7_counterexample :
    (⟨1, "a@x.com", "123456", 1000, "true"⟩ : OTPRecord) ∈ c7store.otps ∧
    (⟨1, "a@x.com", "123456", 1000, "true"⟩ : OTPRecord).isUsed = "true" ∧
    cleanupExpiredOTPs_drizzle c7store 0 = c7store ∧
    (cleanupExpiredOTPs_mongo c7store 0).otps = [] := by
  refine ⟨by simp [c7store], rfl, rfl, rfl⟩

/-! ## C6: note ownership enforced at the query layer -/

theorem list_map_self {α : Type} (f : α → α) (l : List α)
    (h : ∀ a ∈ l, f a = a) : l.map f = l := by
  induction l with
  | nil => rfl
  | cons a t ih =>
    simp only [List.map_cons, h a (by simp)]
    rw [ih (fun x hx => h x (by simp [hx]))]

/-- C6: updating or deleting a note through a request authenticated as a
different user returns not-found, leaves the whole store unchanged, and
returns no note data, in both storage backends — both filter by note id
AND owner id. -/
theorem c6_note_ownership :
    ∀ s : Store, ∀ nt : NoteRec, ∀ b : Nat, ∀ upd : NoteUpdate, ∀ now : Nat,
      nt ∈ s.notes →
      (∀ other ∈ s.notes, other.nid = nt.nid → other = nt) →
      b ≠ nt.userId →
      updateNote_mongo s nt.nid b upd now = (none, s) ∧
      deleteNote_mongo s nt.nid b = (false, s) ∧
      updateNote_drizzle s nt.nid b upd now = (none, s) ∧
      deleteNote_drizzle s nt.nid b = (false, s) ∧
      (∀ w : World, w.store = s →
        updateNoteRoute w now b nt.nid upd = (⟨404, "Note not found", none⟩, w) ∧
        deleteNoteRoute w now b nt.nid = (⟨404, "Note not found", none⟩, w)) := by
  intro s nt b upd now hmem huniq hb
  have hno : ∀ x ∈ s.notes, noteMatch nt.nid b x = false := by
    intro x hx
    by_cases h1 : x.nid = nt.nid
    · have hxe := huniq x hx h1
      rw [hxe]
      simp only [noteMatch, beq_self_eq_true, Bool.true_and, beq_eq_false_iff_ne, ne_eq]
      exact fun h => hb h.symm
    · have hf : (x.nid == nt.nid) = false := by simpa using h1
      simp [noteMatch, hf]
  have hfind : s.notes.find? (noteMatch nt.nid b) = none :=
    List.find?_eq_none.mpr (fun x hx => by simp [hno x hx])
  have hfilter_nil : s.notes.filter (noteMatch nt.nid b) = [] := by
    rw [List.filter_eq_nil_iff]
    intro a ha
    simp [hno a ha]
  have hfilter_self : s.notes.filter (fun x => !(noteMatch nt.nid b x)) = s.notes := by
    rw [List.filter_eq_self]
    intro a ha
    simp [hno a ha]
  have hmap : s.notes.map
      (fun x => if noteMatch nt.nid b x then applyNoteUpdate x upd now else x) = s.notes :=
    list_map_self _ _ (fun a ha => by simp [hno a ha])
  refine ⟨?_, ?_, ?_, ?_, ?_⟩
  · simp [updateNote_mongo, hfind]
  · simp [deleteNote_mongo, hfind]
  · simp [updateNote_drizzle, hfilter_nil, hmap]
  · simp [deleteNote_drizzle, hfilter_nil, hfilter_self]
  · intro w hw
    subst hw
    constructor
    · simp [updateNoteRoute, updateNote_mongo, hfind]
    · simp [deleteNoteRoute, deleteNote_mongo, hfind]

/-- Store with a single note owned by user 5. -/
def c6store : Store := ⟨[], [⟨1, "t", "c", 5, 0⟩], [], 2⟩

/-- Concrete instantiation of `c6_note_ownership`: user 7 can neither
update nor delete note 1, which belongs to user 5. -/
theorem c6_witness :
    updateNote_mongo c6store 1 7 ⟨some "x", none⟩ 0 = (none, c6store) ∧
    deleteNote_drizzle c6store 1 7 = (false, c6store) := by
  have h := c6_note_ownership c6store ⟨1, "t", "c", 5, 0⟩ 7 ⟨some "x", none⟩ 0
    (by decide) (by decide) (by decide)
  exact ⟨h.1, h.2.2.2.1⟩

/-! ## C8: Google OAuth linking preserves the existing user -/

/-- C8: when a user record exists for the OAuth-asserted email and has no
googleId, the Google OAuth flow updates exactly that record, setting only
googleId (and updatedAt); id, email, name, dateOfBirth, password and the
verification flag are unchanged, no user record is created or removed,
every other user is untouched, and the issued token embeds the SAME user
id and email the record had before. -/
theorem c8_google_link_same_user :
    ∀ w : World, ∀ now : Nat, ∀ g : GoogleUserInfo, ∀ u0 : UserRec,
      getUserByEmail w.store g.email = some u0 →
      u0.googleId = none →
      (∀ q ∈ w.store.users, q.uid = u0.uid → q = u0) →
      googleAuth w now true (some g) =
        (⟨200, "Google authentication successful", [],
          some (Token.signed JWT_SECRET u0.uid u0.email now)⟩,
         ⟨{ w.store with users := w.store.users.map (fun x =>
              if x.uid == u0.uid then { u0 with googleId := some g.id, updatedAt := now }
              else x) },
          w.sentEmails⟩) ∧
      ({ u0 with googleId := some g.id, updatedAt := now } ∈
        (googleAuth w now true (some g)).2.store.users) ∧
      ((googleAuth w now true (some g)).2.store.users.length = w.store.users.length) ∧
      (∀ x ∈ w.store.users, x.uid ≠ u0.uid → x ∈ (googleAuth w now true (some g)).2.store.users) ∧
      (({ u0 with googleId := some g.id, updatedAt := now } : UserRec).uid = u0.uid ∧
       ({ u0 with googleId := some g.id, updatedAt := now } : UserRec).email = u0.email ∧
       ({ u0 with googleId := some g.id, updatedAt := now } : UserRec).name = u0.name ∧
       ({ u0 with googleId := some g.id, updatedAt := now } : UserRec).dateOfBirth = u0.dateOfBirth ∧
       ({ u0 with googleId := some g.id, updatedAt := now } : UserRec).password = u0.password ∧
       ({ u0 with googleId := some g.id, updatedAt := now } : UserRec).isEmailVerified = u0.isEmailVerified ∧
       ({ u0 with googleId := some g.id, updatedAt := now } : UserRec).googleId = some g.id) := by
  intro w now g u0 hget hgid huniq
  have hmem : u0 ∈ w.store.users := List.mem_of_find?_eq_some hget
  have hfind_uid : w.store.users.find? (fun u => u.uid == u0.uid) = some u0 := by
    cases hf : w.store.users.find? (fun u => u.uid == u0.uid) with
    | none =>
      have := List.find?_eq_none.mp hf u0 hmem
      simp at this
    | some x =>
      have hpx := List.find?_some hf
      have hmx := List.mem_of_find?_eq_some hf
      simp only [beq_iff_eq] at hpx
      rw [huniq x hmx hpx]
  have happly : applyUserUpdate u0 ⟨none, none, none, none, none, some (some g.id)⟩ now
      = { u0 with googleId := some g.id, updatedAt := now } := by
    simp [applyUserUpdate]
  have hupd : updateUser w.store u0.uid ⟨none, none, none, none, none, some (some g.id)⟩ now
      = (some { u0 with googleId := some g.id, updatedAt := now },
         { w.store with users := w.store.users.map (fun x =>
            if x.uid == u0.uid then { u0 with googleId := some g.id, updatedAt := now }
            else x) }) := by
    simp only [updateUser, hfind_uid, happly]
  have hmain : googleAuth w now true (some g) =
      (⟨200, "Google authentication successful", [],
        some (Token.signed JWT_SECRET u0.uid u0.email now)⟩,
       ⟨{ w.store with users := w.store.users.map (fun x =>
            if x.uid == u0.uid then { u0 with googleId := some g.id, updatedAt := now }
            else x) },
        w.sentEmails⟩) := by
    simp [googleAuth, hget, hgid, hupd, generateToken]
  refine ⟨hmain, ?_, ?_, ?_, rfl, rfl, rfl, rfl, rfl, rfl, rfl⟩
  · rw [hmain]
    have := List.mem_map_of_mem
      (fun x => if x.uid == u0.uid then { u0 with googleId := some g.id, updatedAt := now } else x)
      hmem
    simpa using this
  · rw [hmain]
    simp
  · intro x hx hne
    rw [hmain]
    refine List.mem_map.mpr ⟨x, hx, ?_⟩
    rw [if_neg (by simpa using hne)]

/-- World with a single verified, unlinked user for `g@x.com`. -/
def c8world : World :=
  ⟨⟨[⟨1, "g@x.com", "Ann", "2000-01-01", none, "true", none, 0⟩], [], [], 2⟩, []⟩

/-- Concrete instantiation of `c8_google_link_same_user`: linking issues a
token for user id 1 and only sets googleId and updatedAt. -/
theorem c8_witness :
    (googleAuth c8world 50 true (some ⟨"gid9", "g@x.com", "Ann"⟩)).1.token
      = some (Token.signed JWT_SECRET 1 "g@x.com" 50) ∧
    (googleAuth c8world 50 true (some ⟨"gid9", "g@x.com", "Ann"⟩)).2.store.users
      = [⟨1, "g@x.com", "Ann", "2000-01-01", none, "true", some "gid9", 50⟩] := by
  have h := c8_google_link_same_user c8world 50 ⟨"gid9", "g@x.com", "Ann"⟩
    ⟨1, "g@x.com", "Ann", "2000-01-01", none, "true", none, 0⟩ rfl rfl (by decide)
  exact ⟨by rw [h.1], by rw [h.1]; rfl⟩

/-! ## C1: a token is issued only after identity confirmation -/

/-- After `markOTPAsUsed s id`, every record with id `id` is marked used. -/
theorem markOTPAsUsed_marks (s : Store) (id : Nat) :
    ∀ q ∈ (markOTPAsUsed s id).otps, q.oid = id → q.isUsed = "true" := by
  intro q hq hoid
  simp only [markOTPAsUsed, List.mem_map] at hq
  obtain ⟨x, hx, hfx⟩ := hq
  by_cases h : x.oid = id
  · rw [if_pos (by simpa using h)] at hfx
    subst hfx
    rfl
  · rw [if_neg (by simpa using h)] at hfx
    subst hfx
    exact absurd hoid h

/-- C1: across all authentication request handlers, a response carries a
session token only when the request confirmed identity: signup, login and
resend-otp never return a token; verify-otp and verify-login-otp return a
token only when `getValidOTPCode` found a valid unexpired unused record
for the submitted (email, code) — and that record is marked used in the
resulting state; the Google endpoints return a token only when the Google
identity assertion verified. -/
theorem c1_token_only_after_identity :
    ∀ w : World, ∀ now : Nat,
      (∀ name dob email otpCode : String, ∀ emailErr : Option String,
        ((signup w now name dob email otpCode emailErr).1).token = none) ∧
      (∀ email otpCode : String, ∀ emailErr : Option String,
        ((login w now email otpCode emailErr).1).token = none) ∧
      (∀ email otpCode : String, ∀ emailErr : Option String,
        ((resendOtp w now email otpCode emailErr).1).token = none) ∧
      (∀ email code tn td te : String, ∀ tok : Token,
        ((verifyOtp w now email code tn td te).1).token = some tok →
        ∃ r, getValidOTPCode_mongo w.store now email code = some r ∧
          ∀ q ∈ (verifyOtp w now email code tn td te).2.store.otps,
            q.oid = r.oid → q.isUsed = "true") ∧
      (∀ email code : String, ∀ tok : Token,
        ((verifyLoginOtp w now email code).1).token = some tok →
        ∃ r, getValidOTPCode_mongo w.store now email code = some r ∧
          ∀ q ∈ (verifyLoginOtp w now email code).2.store.otps,
            q.oid = r.oid → q.isUsed = "true") ∧
      (∀ tp : Bool, ∀ gres : Option GoogleUserInfo, ∀ tok : Token,
        ((googleAuth w now tp gres).1).token = some tok → ∃ g, gres = some g) ∧
      (∀ cp : Bool, ∀ gres : Option GoogleUserInfo, ∀ tok : Token,
        ((googleCallback w now cp gres).1).token = some tok → ∃ g, gres = some g) := by
  intro w now
  refine ⟨?_, ?_, ?_, ?_, ?_, ?_, ?_⟩
  · intro name dob email otpCode emailErr
    cases hget : getUserByEmail w.store email <;> cases emailErr <;> simp [signup, hget]
  · intro email otpCode emailErr
    cases hget : getUserByEmail w.store email with
    | none => simp [login, hget]
    | some u =>
      by_cases hv : u.isEmailVerified ≠ "true"
      · simp [login, hget, hv]
      · cases emailErr <;> simp [login, hget, hv]
  · intro email otpCode emailErr
    by_cases he : email = "" <;> cases emailErr <;> simp [resendOtp, he]
  · intro email code tn td te tok htok
    cases hv : getValidOTPCode_mongo w.store now email code with
    | none => simp [verifyOtp, hv] at htok
    | some r =>
      refine ⟨r, rfl, ?_⟩
      have hre : (verifyOtp w now email code tn td te).2.store.otps
          = (markOTPAsUsed w.store r.oid).otps := by
        simp [verifyOtp, hv, createUser]
      rw [hre]
      exact markOTPAsUsed_marks w.store r.oid
  · intro email code tok htok
    cases hv : getValidOTPCode_mongo w.store now email code with
    | none => simp [verifyLoginOtp, hv] at htok
    | some r =>
      refine ⟨r, rfl, ?_⟩
      have hre : (verifyLoginOtp w now email code).2.store.otps
          = (markOTPAsUsed w.store r.oid).otps := by
        cases hg : getUserByEmail (markOTPAsUsed w.store r.oid) email <;>
          simp [verifyLoginOtp, hv, hg]
      rw [hre]
      exact markOTPAsUsed_marks w.store r.oid
  · intro tp gres tok htok
    cases gres with
    | some g => exact ⟨g, rfl⟩
    | none => cases tp <;> simp [googleAuth] at htok
  · intro cp gres tok htok
    cases gres with
    | some g => exact ⟨g, rfl⟩
    | none => cases cp <;> simp [googleCallback] at htok

/-- World with a single valid OTP record and no users. -/
def c1world : World := ⟨⟨[], [], [⟨1, "a@x.com", "123456", 1000, "false"⟩], 2⟩, []⟩

/-- Concrete instantiation of `c1_token_only_after_identity`: a token
issued by verify-otp comes from a valid OTP record that ends up used. -/
theorem c1_witness :
    ∃ r, getValidOTPCode_mongo c1world.store 0 "a@x.com" "123456" = some r ∧
      ∀ q ∈ (verifyOtp c1world 0 "a@x.com" "123456" "Ann" "2000-01-01" "a@x.com").2.store.otps,
        q.oid = r.oid → q.isUsed = "true" :=
  (c1_token_only_after_identity c1world 0).2.2.2.1 "a@x.com" "123456" "Ann" "2000-01-01"
    "a@x.com" (generateToken 0 2 "a@x.com") rfl

/-! ## C3: domain failures issue no OTP and send no email -/

/-- C3: when signup hits an existing account, or login hits a missing or
unverified account, the handler returns the corresponding error (400 /
404 / 401) and the world — OTP store AND sent-email log — is completely
unchanged. -/
theorem c3_domain_failures_leave_state :
    ∀ w : World, ∀ now : Nat, ∀ email otpCode : String, ∀ emailErr : Option String,
      (∀ u, getUserByEmail w.store email = some u →
        ∀ name dob : String, signup w now name dob email otpCode emailErr =
          (⟨400, "User already exists with this email", [], none⟩, w)) ∧
      (getUserByEmail w.store email = none →
        login w now email otpCode emailErr =
          (⟨404, "No account found with this email. Please sign up first.", [], none⟩, w)) ∧
      (∀ u, getUserByEmail w.store email = some u → u.isEmailVerified ≠ "true" →
        login w now email otpCode emailErr =
          (⟨401, "Please verify your email before logging in", [], none⟩, w)) := by
  intro w now email otpCode emailErr
  refine ⟨?_, ?_, ?_⟩
  · intro u hu name dob
    simp [signup, hu]
  · intro h
    simp [login, h]
  · intro u hu hv
    simp [login, hu, hv]

/-- World with one verified user `a@x.com`. -/
def c3worldA : World :=
  ⟨⟨[⟨1, "a@x.com", "Ann", "2000-01-01", none, "true", none, 0⟩], [], [], 2⟩, []⟩

/-- World with one unverified user `b@x.com`. -/
def c3worldB : World :=
  ⟨⟨[⟨1, "b@x.com", "Bob", "2000-01-01", none, "false", none, 0⟩], [], [], 2⟩, []⟩

/-- Concrete instantiation of `c3_domain_failures_leave_state`. -/
theorem c3_witness :
    signup c3worldA 0 "Zoe" "1999-01-01" "a@x.com" "123456" none =
      (⟨400, "User already exists with this email", [], none⟩, c3worldA) ∧
    login c3worldA 0 "nobody@x.com" "123456" none =
      (⟨404, "No account found with this email. Please sign up first.", [], none⟩, c3worldA) ∧
    login c3worldB 0 "b@x.com" "123456" none =
      (⟨401, "Please verify your email before logging in", [], none⟩, c3worldB) := by
  refine ⟨?_, ?_, ?_⟩
  · exact (c3_domain_failures_leave_state c3worldA 0 "a@x.com" "123456" none).1
      ⟨1, "a@x.com", "Ann", "2000-01-01", none, "true", none, 0⟩ rfl "Zoe" "1999-01-01"
  · exact (c3_domain_failures_leave_state c3worldA 0 "nobody@x.com" "123456" none).2.1 rfl
  · exact (c3_domain_failures_leave_state c3worldB 0 "b@x.com" "123456" none).2.2
      ⟨1, "b@x.com", "Bob", "2000-01-01", none, "false", none, 0⟩ rfl (by decide)

/-! ## C9: reporting of downstream email failure -/

/-- Empty world. -/
def c9world : World := ⟨⟨[], [], [], 1⟩, []⟩

/-- C9 counterexample: a failed OTP email send during signup is reported
with HTTP status 400, not 500 as the claim states. -/
theorem c9_counterexample :
    ((signup c9world 0 "Ann" "2000-01-01" "a@x.com" "123456"
        (some "smtp connect ECONNREFUSED")).1).status = 400 ∧
    ¬ ((signup c9world 0 "Ann" "2000-01-01" "a@x.com" "123456"
        (some "smtp connect ECONNREFUSED")).1).status = 500 :=
  ⟨rfl, by decide⟩

/-- C9 (amended): a failed OTP email dispatch during signup is reported
with status 400, message "Signup failed", and the fixed generic wrapper
message from `sendOTPEmail`; the transport error's own message text never
appears — the response does not depend on it at all.  The resend-otp
handler reports the same failure as a 500 with a generic message. -/
theorem c9_email_failure_genericized :
    ∀ w : World, ∀ now : Nat, ∀ name dob email otpCode errText : String,
      getUserByEmail w.store email = none →
      ((signup w now name dob email otpCode (some errText)).1 =
        ⟨400, "Signup failed", [sendOTPEmailMessage], none⟩) ∧
      (∀ errText2 : String,
        signup w now name dob email otpCode (some errText) =
        signup w now name dob email otpCode (some errText2)) ∧
      (email ≠ "" → (resendOtp w now email otpCode (some errText)).1 =
        ⟨500, "Failed to resend verification code", [], none⟩) := by
  intro w now name dob email otpCode errText hnone
  refine ⟨?_, ?_, ?_⟩
  · simp [signup, hnone]
  · intro errText2
    simp [signup, hnone]
  · intro he
    simp [resendOtp, he]

/-- Concrete instantiation of `c9_email_failure_genericized`. -/
theorem c9_witness :
    (signup c9world 0 "Ann" "2000-01-01" "a@x.com" "123456" (some "boom")).1 =
      ⟨400, "Signup failed", ["Failed to send verification email"], none⟩ ∧
    (resendOtp c9world 0 "a@x.com" "123456" (some "boom")).1 =
      ⟨500, "Failed to resend verification code", [], none⟩ := by
  have h := c9_email_failure_genericized c9world 0 "Ann" "2000-01-01" "a@x.com" "123456"
    "boom" rfl
  exact ⟨h.1, h.2.2 (by decide)⟩

/-! ## C10: verify-login-otp consumes the OTP before the user lookup -/

/-- C10: with a valid OTP for (email, code) but no user record for the
email, verify-login-otp returns 404 "User not found" AND has already
marked the OTP used; when that record was the only unused match, the same
code can never be verified again. -/
theorem c10_login_otp_consumed_on_user_not_found :
    ∀ w : World, ∀ now : Nat, ∀ email code : String, ∀ r : OTPRecord,
      getValidOTPCode_mongo w.store now email code = some r →
      getUserByEmail w.store email = none →
      verifyLoginOtp w now email code =
        (⟨404, "User not found", [], none⟩, ⟨markOTPAsUsed w.store r.oid, w.sentEmails⟩) ∧
      (∀ q ∈ (markOTPAsUsed w.store r.oid).otps, q.oid = r.oid → q.isUsed = "true") ∧
      ((∀ q ∈ w.store.otps, q.email = email → q.code = code → q.isUsed = "false" → q.oid = r.oid) →
        ∀ t2, getValidOTPCode_mongo (markOTPAsUsed w.store r.oid) t2 email code = none) := by
  intro w now email code r hv hnouser
  have husers : getUserByEmail (markOTPAsUsed w.store r.oid) email = none := hnouser
  refine ⟨?_, markOTPAsUsed_marks w.store r.oid, ?_⟩
  · simp [verifyLoginOtp, hv, husers]
  · intro huniq t2
    exact getValidOTPCode_mongo_none_after_mark w.store r email code huniq t2

/-- World with one valid OTP and no user for its email. -/
def c10world : World := ⟨⟨[], [], [⟨1, "a@x.com", "123456", 1000, "false"⟩], 2⟩, []⟩

/-- Concrete instantiation of
`c10_login_otp_consumed_on_user_not_found`. -/
theorem c10_witness :
    verifyLoginOtp c10world 0 "a@x.com" "123456" =
      (⟨404, "User not found", [], none⟩, ⟨markOTPAsUsed c10world.store 1, []⟩) ∧
    getValidOTPCode_mongo (markOTPAsUsed c10world.store 1) 0 "a@x.com" "123456" = none := by
  have h := c10_login_otp_consumed_on_user_not_found c10world 0 "a@x.com" "123456"
    ⟨1, "a@x.com", "123456", 1000, "false"⟩ rfl rfl
  exact ⟨h.1, h.2.2 (by decide) 0⟩
